import Mathlib

/-!
Verification of the credential-resolver backend in src/src-tauri/src/lib.rs.

The file shallowly embeds the four Tauri commands that carry logic
(get_github_credential, get_github_env_token, verify_github_token, quit_app)
plus the tray-menu event handler.  Effectful collaborators (process spawning,
environment variables, HTTPS transport, the app handle) are modelled as
explicit world parameters; strings are modelled as List Char where Rust
slices the text apart, so that Rust functions such as str::lines and
str::trim_start_matches can be embedded faithfully.
-/

/-! ### Rust string primitives used by the source -/

/-- Strip one trailing carriage return, as Rust str::lines does to the chunk
that preceded a newline (so that a CRLF terminator is removed whole). -/
def stripTrailingCr (l : List Char) : List Char :=
  if l.getLast? = some '\r' then l.dropLast else l

/-- Accumulator-style worker for rustLines; acc holds the current line in
reverse.  A chunk terminated by a newline has a trailing CR stripped; a final
chunk with no terminator is kept verbatim, and produces no line if empty. -/
def rustLinesAux (acc s : List Char) : List (List Char) :=
  match s with
  | [] => if acc.isEmpty then [] else [acc.reverse]
  | c :: rest =>
      if c = '\n' then stripTrailingCr acc.reverse :: rustLinesAux [] rest
      else rustLinesAux (c :: acc) rest

/-- Embedding of Rust str::lines: split at LF or CRLF, the final terminator
being optional. -/
def rustLines (s : List Char) : List (List Char) :=
  rustLinesAux [] s

/-- Fuel-indexed worker for trimStartMatches.  Each step that fires removes
pat (non-empty) from the front, shortening the list by at least one, so fuel
equal to the length of the starting list always reaches the fixpoint. -/
def trimStartAux (pat : List Char) (fuel : Nat) (s : List Char) : List Char :=
  match fuel with
  | 0 => s
  | fuel + 1 =>
      if pat.isPrefixOf s && !pat.isEmpty then trimStartAux pat fuel (s.drop pat.length)
      else s

/-- Embedding of Rust str::trim_start_matches: repeatedly removes pat from
the front while it matches (note: all repetitions are removed, not just the
first occurrence). -/
def trimStartMatches (pat s : List Char) : List Char :=
  trimStartAux pat s.length s

/-! ### get_github_credential (src/src-tauri/src/lib.rs lines 11-61) -/

/-- Captured result of the child process, with stdout already decoded the way
String::from_utf8_lossy yields text.  success mirrors output.status.success(). -/
structure ProcessOutput where
  success : Bool
  stdout : List Char
  stderr : List Char

/-- A spawned child: the outcome of writing bytes to its stdin, and the
outcome of wait_with_output. -/
structure Child where
  writeStdin : List Char → Except String Unit
  waitWithOutput : Except String ProcessOutput

/-- The process-execution world: spawning a program with arguments either
fails with an io error (rendered as its display string) or yields a child. -/
structure ProcWorld where
  spawn : String → List String → Except String Child

/-- Observable process interactions performed by get_github_credential. -/
inductive ProcEvent
  | spawned (program : String) (args : List String)
  | wroteStdin (bytes : List Char)
  | awaited
deriving DecidableEq

/-- The argument list passed to the git child process (cmd.args at line 23). -/
def gitCredentialArgs : List String := ["credential", "fill"]

/-- The bytes written to the child stdin (write_all at line 35). -/
def gitCredentialStdinPayload : List Char :=
  ("protocol=https\nhost=github.com\n\n").toList

/-- The key scanned for in the child stdout (lines 45-46). -/
def passwordKey : List Char := ("password=").toList

/-- The scanning loop of lines 44-51: first line starting with the password
key whose trim_start_matches remainder is non-empty yields that remainder;
an empty remainder falls through to later lines. -/
def findPassword (ls : List (List Char)) : Option (List Char) :=
  match ls with
  | [] => none
  | line :: rest =>
      if passwordKey.isPrefixOf line then
        let token := trimStartMatches passwordKey line
        if token.isEmpty then findPassword rest else some token
      else findPassword rest

/-- Embedding of get_github_credential, additionally returning the trace of
process interactions.  Mirrors the source: spawn, write the fixed payload to
stdin with the write result discarded via .ok(), wait_with_output; a spawn or
wait error is wrapped by the outer match into the formatted message; on
success the stdout lines are scanned, a failure status yields Ok(None). -/
def get_github_credentialT (w : ProcWorld) :
    Except String (Option (List Char)) × List ProcEvent :=
  match w.spawn "git" gitCredentialArgs with
  | .error e =>
      (.error ("Failed to execute git credential: " ++ e),
       [.spawned "git" gitCredentialArgs])
  | .ok child =>
      let _ := child.writeStdin gitCredentialStdinPayload
      match child.waitWithOutput with
      | .error e =>
          (.error ("Failed to execute git credential: " ++ e),
           [.spawned "git" gitCredentialArgs,
            .wroteStdin gitCredentialStdinPayload, .awaited])
      | .ok out =>
          (.ok (if out.success then findPassword (rustLines out.stdout) else none),
           [.spawned "git" gitCredentialArgs,
            .wroteStdin gitCredentialStdinPayload, .awaited])

/-- The value returned to the frontend by get_github_credential. -/
def get_github_credential (w : ProcWorld) : Except String (Option (List Char)) :=
  (get_github_credentialT w).1

/-! ### get_github_env_token (lines 64-68) -/

/-- Embedding of get_github_env_token over an environment (name to optional
value; env::var(..).ok() is None for an unset variable and Some of the value,
possibly empty, for a set one). -/
def get_github_env_token (env : String → Option String) : Option String :=
  (env "GITHUB_TOKEN").orElse (fun _ => env "GH_TOKEN")

/-! ### verify_github_token (lines 71-83) -/

/-- The outbound HTTPS request assembled by verify_github_token. -/
structure HttpRequest where
  url : String
  headers : List (String × String)
deriving DecidableEq

/-- A transport-level response carrying its HTTP status code. -/
structure HttpResponse where
  status : Nat
deriving DecidableEq

/-- Request built at lines 74-77: fixed endpoint, bearer header, fixed
user-agent header. -/
def verifyRequest (token : String) : HttpRequest :=
  { url := "https://api.github.com/user",
    headers := [("Authorization", "Bearer " ++ token),
                ("User-Agent", "ScriptHub-App")] }

/-- reqwest StatusCode::is_success: the 2xx range. -/
def statusIsSuccess (s : Nat) : Bool :=
  200 ≤ s && s < 300

/-- Embedding of verify_github_token over a transport world: a transport
error (already rendered to a string, as map_err does) is propagated; a
response yields Ok of its success flag. -/
def verify_github_token (send : HttpRequest → Except String HttpResponse)
    (token : String) : Except String Bool :=
  match send (verifyRequest token) with
  | .error e => .error e
  | .ok r => .ok (statusIsSuccess r.status)

/-! ### quit_app and the tray menu (lines 91-94 and 137-150) -/

/-- Effects a command or menu handler can perform on the app handle. -/
inductive AppEffect
  | exit (code : Int)
  | showFocusMain
  | noop
deriving DecidableEq

/-- Embedding of quit_app: app_handle.exit(0). -/
def quit_app : AppEffect := .exit 0

/-- Embedding of the on_menu_event closure at lines 137-150: show shows and
focuses the main window, quit exits with code 0, anything else is ignored. -/
def trayMenuOnEvent (id : String) : AppEffect :=
  if id = "show" then .showFocusMain
  else if id = "quit" then .exit 0
  else .noop

/-! ### Concrete worlds used to instantiate the theorems -/

/-- A process world whose spawn succeeds, whose stdin write succeeds, and
whose wait returns the given output. -/
def okWorld (out : ProcessOutput) : ProcWorld :=
  ⟨fun _ _ => .ok ⟨fun _ => .ok (), .ok out⟩⟩

/-- A process world whose spawn fails with the given error. -/
def errWorld (e : String) : ProcWorld :=
  ⟨fun _ _ => .error e⟩

/-- A process world whose spawn succeeds but whose stdin write fails with a
broken pipe; the wait still returns the given output. -/
def pipeFailWorld (out : ProcessOutput) : ProcWorld :=
  ⟨fun _ _ => .ok ⟨fun _ => .error "broken pipe", .ok out⟩⟩

/-- An environment where only the two consulted variables may be set. -/
def envWith (g gh : Option String) : String → Option String :=
  fun n => if n = "GITHUB_TOKEN" then g else if n = "GH_TOKEN" then gh else none

/-- A transport that returns the same outcome for every request. -/
def httpConst (r : Except String HttpResponse) :
    HttpRequest → Except String HttpResponse :=
  fun _ => r

/-! ### Helper lemmas -/

/-- A list with a boolean prefix decomposes as that prefix plus the drop. -/
theorem isPrefixOf_eq_append {p l : List Char} (h : p.isPrefixOf l = true) :
    l = p ++ l.drop p.length := by
  induction p generalizing l with
  | nil => simp
  | cons a p ih =>
      cases l with
      | nil => simp [List.isPrefixOf] at h
      | cons b l =>
          simp only [List.isPrefixOf, Bool.and_eq_true, beq_iff_eq] at h
          obtain ⟨hab, h2⟩ := h
          simpa [hab] using ih h2

/-- Unfolding of get_github_credential when the process ran to completion. -/
theorem get_github_credential_run (w : ProcWorld) (child : Child)
    (out : ProcessOutput)
    (hs : w.spawn "git" gitCredentialArgs = .ok child)
    (hw : child.waitWithOutput = .ok out) :
    get_github_credential w =
      .ok (if out.success then findPassword (rustLines out.stdout) else none) := by
  unfold get_github_credential get_github_credentialT
  rw [hs]
  simp [hw]

/-- Lines that do not start with the key, or whose stripped remainder is
empty, are skipped by the scanning loop. -/
theorem findPassword_append_skip (pre rest : List (List Char))
    (h : ∀ l ∈ pre, passwordKey.isPrefixOf l = false ∨
        trimStartMatches passwordKey l = []) :
    findPassword (pre ++ rest) = findPassword rest := by
  induction pre with
  | nil => rfl
  | cons l pre ih =>
      have hl := h l (by simp)
      have hrec := ih (fun x hx => h x (by simp [hx]))
      rcases hl with hl | hl
      · simpa [findPassword, hl] using hrec
      · rcases hp : passwordKey.isPrefixOf l with _ | _
        · simpa [findPassword, hp] using hrec
        · simpa [findPassword, hp, hl] using hrec

/-- A line starting with the key whose stripped remainder is non-empty is
returned by the scanning loop. -/
theorem findPassword_cons_some (line : List Char) (rest : List (List Char))
    (tok : List Char)
    (hp : passwordKey.isPrefixOf line = true)
    (ht : trimStartMatches passwordKey line = tok)
    (hne : tok ≠ []) :
    findPassword (line :: rest) = some tok := by
  simp [findPassword, hp, ht, List.isEmpty_iff, hne]

/-- Any token produced by the scanning loop is non-empty. -/
theorem findPassword_some_ne_nil (ls : List (List Char)) (t : List Char)
    (h : findPassword ls = some t) : t ≠ [] := by
  induction ls with
  | nil => simp [findPassword] at h
  | cons line rest ih =>
      by_cases hp : passwordKey.isPrefixOf line = true
      · by_cases he : (trimStartMatches passwordKey line).isEmpty = true
        · exact ih (by simpa [findPassword, hp, he] using h)
        · have := (by simpa [findPassword, hp, he] using h :
            trimStartMatches passwordKey line = t)
          intro hnil
          rw [this, hnil] at he
          simp at he
      · exact ih (by simpa [findPassword, Bool.of_not_eq_true hp] using h)

/-- If every line starting with the password key has nothing after it, the
scanning loop finds no token. -/
theorem findPassword_none_of_trivial (ls : List (List Char))
    (h : ∀ l ∈ ls, passwordKey.isPrefixOf l = true →
        l.drop passwordKey.length = []) :
    findPassword ls = none := by
  induction ls with
  | nil => rfl
  | cons line rest ih =>
      have hrec := ih (fun x hx => h x (by simp [hx]))
      by_cases hp : passwordKey.isPrefixOf line = true
      · have hdrop := h line (by simp) hp
        have hline : line = passwordKey := by
          have hsplit := isPrefixOf_eq_append hp
          rw [hdrop] at hsplit
          simpa using hsplit
        have htrim : trimStartMatches passwordKey line = [] := by
          rw [hline]; decide
        simpa [findPassword, hp, htrim] using hrec
      · simpa [findPassword, Bool.of_not_eq_true hp] using hrec

/-! ### Claims -/

/-- C1 (amended): on a successful run whose stdout lines split as pre, line,
post, where every line of pre either lacks the password key or strips to the
empty remainder, and line strips (removing all leading repetitions of the
key, as trim_start_matches does) to a non-empty tok, the command returns
Some tok: the first line with a non-empty stripped remainder wins. -/
theorem c1_first_nonempty_stripped_match (w : ProcWorld) (child : Child)
    (out : ProcessOutput) (pre post : List (List Char)) (line tok : List Char)
    (hs : w.spawn "git" gitCredentialArgs = .ok child)
    (hw : child.waitWithOutput = .ok out)
    (hsucc : out.success = true)
    (hlines : rustLines out.stdout = pre ++ line :: post)
    (hpre : ∀ l ∈ pre, passwordKey.isPrefixOf l = false ∨
        trimStartMatches passwordKey l = [])
    (hline : passwordKey.isPrefixOf line = true)
    (htok : trimStartMatches passwordKey line = tok)
    (hne : tok ≠ []) :
    get_github_credential w = .ok (some tok) := by
  rw [get_github_credential_run w child out hs hw, hsucc]
  rw [if_pos rfl, hlines, findPassword_append_skip pre (line :: post) hpre,
    findPassword_cons_some line post tok hline htok hne]

/-- C1 counterexample: a password line whose value itself starts with the
password key loses those leading copies, because trim_start_matches removes
all repetitions of the pattern: the claimed result would be the remainder
after one copy, password=x, but the code returns x. -/
theorem c1_counterexample :
    get_github_credential (okWorld ⟨true, ("password=password=x").toList, []⟩) =
      .ok (some (("x").toList)) ∧
    ("x").toList ≠ ("password=x").toList := by
  constructor
  · rfl
  · decide

/-- C1 witness: earlier non-matching and empty-valued lines are skipped and
the first line with a non-empty stripped value is returned. -/
theorem c1_witness :
    get_github_credential (okWorld ⟨true,
      ("url=x\npassword=\npassword=abc\npassword=zzz\n").toList, []⟩) =
      .ok (some (("abc").toList)) :=
  c1_first_nonempty_stripped_match
    (okWorld ⟨true, ("url=x\npassword=\npassword=abc\npassword=zzz\n").toList, []⟩)
    ⟨fun _ => .ok (), .ok ⟨true,
      ("url=x\npassword=\npassword=abc\npassword=zzz\n").toList, []⟩⟩
    ⟨true, ("url=x\npassword=\npassword=abc\npassword=zzz\n").toList, []⟩
    [("url=x").toList, ("password=").toList] [("password=zzz").toList]
    (("password=abc").toList) (("abc").toList)
    rfl rfl rfl (by decide) (by decide) (by decide) (by decide) (by decide)

/-- C5: a run where the child was spawned and awaited but exited with a
failure status yields Ok None, whatever was written to its streams. -/
theorem c5_failure_status_none (w : ProcWorld) (child : Child)
    (out : ProcessOutput)
    (hs : w.spawn "git" gitCredentialArgs = .ok child)
    (hw : child.waitWithOutput = .ok out)
    (hfail : out.success = false) :
    get_github_credential w = .ok none := by
  rw [get_github_credential_run w child out hs hw, hfail]
  rfl

/-- C5 witness: a failing helper whose stdout even contains a password line
still yields Ok None. -/
theorem c5_witness :
    get_github_credential (okWorld ⟨false, ("password=abc\n").toList, []⟩) =
      .ok none :=
  c5_failure_status_none
    (okWorld ⟨false, ("password=abc\n").toList, []⟩)
    ⟨fun _ => .ok (), .ok ⟨false, ("password=abc\n").toList, []⟩⟩
    ⟨false, ("password=abc\n").toList, []⟩ rfl rfl rfl

/-- C7: a successful run whose stdout has no password line, or only password
lines with empty values, yields Ok None. -/
theorem c7_no_token_none (w : ProcWorld) (child : Child) (out : ProcessOutput)
    (hs : w.spawn "git" gitCredentialArgs = .ok child)
    (hw : child.waitWithOutput = .ok out)
    (hsucc : out.success = true)
    (hall : ∀ l ∈ rustLines out.stdout, passwordKey.isPrefixOf l = true →
        l.drop passwordKey.length = []) :
    get_github_credential w = .ok none := by
  rw [get_github_credential_run w child out hs hw, hsucc]
  rw [if_pos rfl, findPassword_none_of_trivial _ hall]

/-- C7 witness: output with an empty-valued password line and otherwise no
password line yields Ok None. -/
theorem c7_witness :
    get_github_credential (okWorld ⟨true,
      ("protocol=https\nusername=git\npassword=\n").toList, []⟩) = .ok none :=
  c7_no_token_none
    (okWorld ⟨true, ("protocol=https\nusername=git\npassword=\n").toList, []⟩)
    ⟨fun _ => .ok (), .ok ⟨true,
      ("protocol=https\nusername=git\npassword=\n").toList, []⟩⟩
    ⟨true, ("protocol=https\nusername=git\npassword=\n").toList, []⟩
    rfl rfl rfl (by decide)

/-- C2 (amended): get_github_env_token returns the primary variable value
whenever GITHUB_TOKEN is set, even when its value is the empty string; the
fallback GH_TOKEN is consulted only when GITHUB_TOKEN is unset, in which
case its optional value (Some when set, None when not) is returned. -/
theorem c2_primary_wins (env : String → Option String) :
    (∀ v, env "GITHUB_TOKEN" = some v → get_github_env_token env = some v) ∧
    (env "GITHUB_TOKEN" = none → get_github_env_token env = env "GH_TOKEN") := by
  constructor
  · intro v hv
    simp [get_github_env_token, hv, Option.orElse]
  · intro h
    simp [get_github_env_token, h, Option.orElse]

/-- C2 counterexample: with GITHUB_TOKEN set to the empty string and GH_TOKEN
set to x, the code returns Some of the empty string, not the fallback value:
env::var(..).ok() is Some for an empty-but-set variable, so emptiness never
triggers the fallback. -/
theorem c2_counterexample :
    get_github_env_token (envWith (some "") (some "x")) = some "" ∧
    (some "" : Option String) ≠ some "x" := by
  constructor
  · rfl
  · decide

/-- C2 witness: a set primary wins over a set fallback, and an unset primary
falls back. -/
theorem c2_witness :
    get_github_env_token (envWith (some "t") (some "u")) = some "t" ∧
    get_github_env_token (envWith none (some "u")) = some "u" := by
  constructor
  · exact (c2_primary_wins (envWith (some "t") (some "u"))).1 "t" rfl
  · exact ((c2_primary_wins (envWith none (some "u"))).2 rfl).trans rfl

/-- C3 (amended): every present token returned by get_github_credential is
non-empty; the same does not hold of get_github_env_token, which passes a
set-but-empty variable through as Some of the empty string. -/
theorem c3_store_token_nonempty (w : ProcWorld) (t : List Char)
    (h : get_github_credential w = .ok (some t)) : t ≠ [] := by
  unfold get_github_credential get_github_credentialT at h
  rcases hs : w.spawn "git" gitCredentialArgs with e | child
  · rw [hs] at h
    simp at h
  · rw [hs] at h
    rcases hw : child.waitWithOutput with e | out
    · simp [hw] at h
    · simp only [hw] at h
      rcases hsucc : out.success with _ | _
      · simp [hsucc] at h
      · rw [hsucc] at h
        simp only [if_pos rfl, Except.ok.injEq, Option.some.injEq] at h
        rcases hfp : findPassword (rustLines out.stdout) with _ | tok
        · rw [hfp] at h
          simp at h
        · have ht : tok = t := by
            rw [hfp] at h
            simpa using h
          exact ht ▸ findPassword_some_ne_nil _ _ hfp

/-- C3 counterexample: the environment path violates the invariant, returning
Some of the empty string when GITHUB_TOKEN is set to the empty value. -/
theorem c3_counterexample :
    get_github_env_token (envWith (some "") none) = some "" ∧
    ("" : String).length = 0 := by
  constructor
  · rfl
  · rfl

/-- C3 witness: a concrete store lookup returning Some yields a non-empty
token. -/
theorem c3_witness : ("abc").toList ≠ [] :=
  c3_store_token_nonempty
    (okWorld ⟨true, ("password=abc\n").toList, []⟩) (("abc").toList) rfl

/-- C4: verify_github_token returns Ok true iff the response status is 2xx,
Ok false on any other status, and propagates the transport error string
exactly when the request could not be completed. -/
theorem c4_verify_status (send : HttpRequest → Except String HttpResponse)
    (token : String) :
    (∀ r, send (verifyRequest token) = .ok r →
      ((verify_github_token send token = .ok true ↔
          (200 ≤ r.status ∧ r.status < 300)) ∧
       (¬(200 ≤ r.status ∧ r.status < 300) →
          verify_github_token send token = .ok false))) ∧
    (∀ e, send (verifyRequest token) = .error e →
      verify_github_token send token = .error e) ∧
    (∀ e, verify_github_token send token = .error e →
      send (verifyRequest token) = .error e) := by
  refine ⟨?_, ?_, ?_⟩
  · intro r hr
    unfold verify_github_token
    rw [hr]
    constructor
    · simp [statusIsSuccess]
    · intro hfail
      simp only [Except.ok.injEq]
      simpa [statusIsSuccess] using hfail
  · intro e he
    unfold verify_github_token
    rw [he]
  · intro e he
    unfold verify_github_token at he
    rcases hr : send (verifyRequest token) with e2 | r
    · rw [hr] at he
      simpa [hr] using he
    · rw [hr] at he
      simp at he

/-- C4 witness: a 204 response verifies, a 401 response yields Ok false, a
transport failure propagates as the error. -/
theorem c4_witness :
    verify_github_token (httpConst (.ok ⟨204⟩)) "tok" = .ok true ∧
    verify_github_token (httpConst (.ok ⟨401⟩)) "tok" = .ok false ∧
    verify_github_token (httpConst (.error "dns failure")) "tok" =
      .error "dns failure" := by
  refine ⟨?_, ?_, ?_⟩
  · exact ((c4_verify_status (httpConst (.ok ⟨204⟩)) "tok").1 ⟨204⟩ rfl).1.mpr
      (by decide)
  · exact ((c4_verify_status (httpConst (.ok ⟨401⟩)) "tok").1 ⟨401⟩ rfl).2
      (by decide)
  · exact (c4_verify_status (httpConst (.error "dns failure")) "tok").2.1
      "dns failure" rfl

/-- C6: a spawn failure, and likewise a wait failure, surfaces as Err with
the cause appended to the fixed message, and that outcome is distinct from
the Ok None lookup miss. -/
theorem c6_process_error (w : ProcWorld) (child : Child) (e : String) :
    (w.spawn "git" gitCredentialArgs = .error e →
      get_github_credential w =
        .error ("Failed to execute git credential: " ++ e)) ∧
    (w.spawn "git" gitCredentialArgs = .ok child →
      child.waitWithOutput = .error e →
      get_github_credential w =
        .error ("Failed to execute git credential: " ++ e)) ∧
    (Except.error ("Failed to execute git credential: " ++ e) ≠
      (Except.ok none : Except String (Option (List Char)))) := by
  refine ⟨?_, ?_, ?_⟩
  · intro h
    unfold get_github_credential get_github_credentialT
    rw [h]
  · intro hs hw
    unfold get_github_credential get_github_credentialT
    rw [hs]
    simp [hw]
  · intro h
    exact Except.noConfusion h

/-- C6 witness: a concrete spawn failure produces the wrapped error. -/
theorem c6_witness :
    get_github_credential (errWorld "No such file or directory (os error 2)") =
      .error ("Failed to execute git credential: " ++
        "No such file or directory (os error 2)") :=
  (c6_process_error (errWorld "No such file or directory (os error 2)")
    ⟨fun _ => .ok (), .ok ⟨true, [], []⟩⟩
    "No such file or directory (os error 2)").1 rfl

/-- C8: every call spawns git with arguments credential fill, and whenever
the spawn succeeds the call writes exactly the fixed payload bytes to the
child stdin and then awaits it, performing no other process interaction. -/
theorem c8_invocation_and_payload :
    (∀ w : ProcWorld, (get_github_credentialT w).2.head? =
        some (ProcEvent.spawned "git" ["credential", "fill"])) ∧
    (∀ (w : ProcWorld) (child : Child),
      w.spawn "git" gitCredentialArgs = .ok child →
      (get_github_credentialT w).2 =
        [ProcEvent.spawned "git" ["credential", "fill"],
         ProcEvent.wroteStdin (("protocol=https\nhost=github.com\n\n").toList),
         ProcEvent.awaited]) := by
  constructor
  · intro w
    unfold get_github_credentialT
    rcases hs : w.spawn "git" gitCredentialArgs with e | child
    · simp [gitCredentialArgs]
    · rcases hw : child.waitWithOutput with e | out <;>
        simp [hw, gitCredentialArgs]
  · intro w child hs
    unfold get_github_credentialT
    rw [hs]
    rcases hw : child.waitWithOutput with e | out <;>
      simp [hw, gitCredentialArgs, gitCredentialStdinPayload]

/-- C8 witness: a concrete successful spawn records exactly the three fixed
interactions. -/
theorem c8_witness :
    (get_github_credentialT (okWorld ⟨true, [], []⟩)).2 =
      [ProcEvent.spawned "git" ["credential", "fill"],
       ProcEvent.wroteStdin (("protocol=https\nhost=github.com\n\n").toList),
       ProcEvent.awaited] :=
  c8_invocation_and_payload.2 (okWorld ⟨true, [], []⟩)
    ⟨fun _ => .ok (), .ok ⟨true, [], []⟩⟩ rfl

/-- C10: when the spawn succeeds, a failure of the stdin write is discarded:
the call still awaits the child and parses its output, and the result is the
Ok outcome determined by the output alone, never an Err. -/
theorem c10_stdin_write_failure_ignored (w : ProcWorld) (child : Child)
    (e : String) (out : ProcessOutput)
    (hs : w.spawn "git" gitCredentialArgs = .ok child)
    (_hwr : child.writeStdin gitCredentialStdinPayload = .error e)
    (hw : child.waitWithOutput = .ok out) :
    get_github_credential w =
      .ok (if out.success then findPassword (rustLines out.stdout) else none) ∧
    (get_github_credentialT w).2 = [ProcEvent.spawned "git" gitCredentialArgs,
      ProcEvent.wroteStdin gitCredentialStdinPayload, ProcEvent.awaited] := by
  have hrun := get_github_credential_run w child out hs hw
  refine ⟨hrun, ?_⟩
  unfold get_github_credentialT
  rw [hs]
  simp [hw]

/-- C10 witness: a child whose stdin write fails with a broken pipe still has
its output parsed and yields the token. -/
theorem c10_witness :
    get_github_credential (pipeFailWorld ⟨true, ("password=abc\n").toList, []⟩) =
      .ok (some (("abc").toList)) ∧
    (get_github_credentialT
        (pipeFailWorld ⟨true, ("password=abc\n").toList, []⟩)).2 =
      [ProcEvent.spawned "git" gitCredentialArgs,
       ProcEvent.wroteStdin gitCredentialStdinPayload, ProcEvent.awaited] :=
  c10_stdin_write_failure_ignored
    (pipeFailWorld ⟨true, ("password=abc\n").toList, []⟩)
    ⟨fun _ => .error "broken pipe", .ok ⟨true, ("password=abc\n").toList, []⟩⟩
    "broken pipe" ⟨true, ("password=abc\n").toList, []⟩ rfl rfl rfl

/-- C9: the quit-application command performs exit(0), and so does the tray
menu handler on the quit entry; both therefore terminate the process with
exit code 0. -/
theorem c9_quit_exits_zero :
    quit_app = AppEffect.exit 0 ∧ trayMenuOnEvent "quit" = AppEffect.exit 0 := by
  constructor
  · rfl
  · rfl
